import Mathlib

/-!
Verification development for the desktop clock widget (desktop_clock.py).

The Python source is shallowly embedded: Qt signals become explicit event
lists, mutable object state becomes explicit state passing, and Python ints
become Lean Int / Nat.  Font-metric measurement and Qt color printing are
external to the program and appear as explicit function parameters.
-/

/-! ## Constants (desktop_clock.py lines 33-47) -/

def DEFAULT_COUNTDOWN_MINUTES : Int := 25

def DEFAULT_BASE_SIZE : Nat := 80

/-! ## Colors

A QColor is modelled by its red/green/blue channels, which is all the theme
catalog and the gradient construction use. -/

structure QColor where
  red : Nat
  green : Nat
  blue : Nat
  deriving DecidableEq

/-! ## Decimal rendering (semantics of Python str(int) and the 02d format)

Python renders non-negative integers in decimal with no padding; the 02d
format pads the decimal form with leading zeros to a minimum width of 2.
The fuel argument makes the recursion structural; fuel n+1 always suffices
for the number n. -/

def natDecCore : Nat → Nat → List Char
  | 0, _ => []
  | fuel + 1, n =>
    if n < 10 then [Char.ofNat (48 + n)]
    else natDecCore fuel (n / 10) ++ [Char.ofNat (48 + n % 10)]

def natDec (n : Nat) : String :=
  String.mk (natDecCore (n + 1) n)

/-- Python f-string 02d format on a non-negative integer. -/
def fmt02 (n : Nat) : String :=
  if n < 10 then "0" ++ natDec n else natDec n

/-! ## TimerManager (desktop_clock.py lines 127-215)

The five pyqtSignal emissions become an explicit event list; each operation
returns the successor state together with the events it emitted, in emission
order.  countdown_seconds is an Int because Python never clamps it on write
(get_countdown_time_str repairs negatives on read, lines 205-206). -/

inductive TimerEvent where
  | countdownUpdated (n : Int)
  | stopwatchUpdated (n : Nat)
  | countdownFinished
  | countdownStateChanged (b : Bool)
  | stopwatchStateChanged (b : Bool)
  deriving DecidableEq

structure TimerState where
  countdown_seconds : Int
  countdown_running : Bool
  stopwatch_seconds : Nat
  stopwatch_running : Bool
  deriving DecidableEq

/-- TimerManager.__init__ (lines 136-149): default countdown, zero stopwatch. -/
def timerInit : TimerState :=
  { countdown_seconds := DEFAULT_COUNTDOWN_MINUTES * 60
    countdown_running := false
    stopwatch_seconds := 0
    stopwatch_running := false }

/-- TimerManager.pause_countdown (lines 159-162).  Always clears the running
flag and emits countdown_state_changed(False), even when already paused. -/
def pause_countdown (st : TimerState) : TimerState × List TimerEvent :=
  ({ st with countdown_running := false }, [TimerEvent.countdownStateChanged false])

/-- TimerManager.start_countdown (lines 151-157).  The optional minutes
argument overwrites the remaining seconds first; the start transition then
fires only if not already running and the (new) remaining seconds is
positive. -/
def start_countdown (m : Option Int) (st : TimerState) : TimerState × List TimerEvent :=
  let st1 := match m with
    | some minutes => { st with countdown_seconds := minutes * 60 }
    | none => st
  if st1.countdown_running = false ∧ 0 < st1.countdown_seconds then
    ({ st1 with countdown_running := true }, [TimerEvent.countdownStateChanged true])
  else
    (st1, [])

/-- TimerManager.set_countdown_minutes (lines 169-172). -/
def set_countdown_minutes (minutes : Int) (st : TimerState) : TimerState × List TimerEvent :=
  let st1 := { st with countdown_seconds := minutes * 60 }
  if st1.countdown_running = false then
    (st1, [TimerEvent.countdownUpdated (minutes * 60)])
  else
    (st1, [])

/-- TimerManager._on_countdown_tick (lines 190-198). -/
def on_countdown_tick (st : TimerState) : TimerState × List TimerEvent :=
  if 0 < st.countdown_seconds then
    let st1 := { st with countdown_seconds := st.countdown_seconds - 1 }
    if st1.countdown_seconds = 0 then
      let p := pause_countdown st1
      (p.1, TimerEvent.countdownUpdated st1.countdown_seconds ::
            TimerEvent.countdownFinished :: p.2)
    else
      (st1, [TimerEvent.countdownUpdated st1.countdown_seconds])
  else
    pause_countdown st

/-- TimerManager._on_stopwatch_tick (lines 200-202). -/
def on_stopwatch_tick (st : TimerState) : TimerState × List TimerEvent :=
  let st1 := { st with stopwatch_seconds := st.stopwatch_seconds + 1 }
  (st1, [TimerEvent.stopwatchUpdated st1.stopwatch_seconds])

/-- Iterate the countdown tick handler, accumulating emitted events. -/
def runCountdownTicks : Nat → TimerState → TimerState × List TimerEvent
  | 0, st => (st, [])
  | n + 1, st =>
    let r := on_countdown_tick st
    let r2 := runCountdownTicks n r.1
    (r2.1, r.2 ++ r2.2)

/-- TimerManager.get_countdown_time_str (lines 204-209).  A negative counter
is repaired to 0 in place before formatting; afterwards the value is
non-negative, so Python floor division and modulo coincide with Nat
division and modulo on the toNat image. -/
def get_countdown_time_str (st : TimerState) : String × TimerState :=
  let st1 := if st.countdown_seconds < 0 then { st with countdown_seconds := 0 } else st
  let n := st1.countdown_seconds.toNat
  (fmt02 (n / 60) ++ ":" ++ fmt02 (n % 60), st1)

/-- TimerManager.get_stopwatch_time_str (lines 211-215). -/
def get_stopwatch_time_str (st : TimerState) : String :=
  let t := st.stopwatch_seconds
  fmt02 (t / 3600) ++ ":" ++ fmt02 (t % 3600 / 60) ++ ":" ++ fmt02 (t % 60)

/-! ## ThemeManager (desktop_clock.py lines 51-123)

Gradient stop positions are exact two-decimal literals in the source; they
are represented exactly as hundredths (0.16 becomes 16, 1.0 becomes 100),
which preserves their ordering and equality. -/

abbrev GradPos := Nat

def THEMES : List (String × List (GradPos × QColor)) :=
  [("单色", [((0 : Nat), ⟨255, 255, 255⟩)]),
   ("彩虹",
    [((0 : Nat), ⟨255, 0, 0⟩),
     ((16 : Nat), ⟨255, 165, 0⟩),
     ((33 : Nat), ⟨255, 255, 0⟩),
     ((50 : Nat), ⟨0, 255, 0⟩),
     ((66 : Nat), ⟨0, 255, 255⟩),
     ((83 : Nat), ⟨0, 0, 255⟩),
     ((100 : Nat), ⟨128, 0, 128⟩)]),
   ("落日",
    [((0 : Nat), ⟨255, 69, 0⟩),
     ((33 : Nat), ⟨255, 140, 0⟩),
     ((66 : Nat), ⟨255, 215, 0⟩),
     ((100 : Nat), ⟨255, 255, 0⟩)]),
   ("黑白",
    [((0 : Nat), ⟨255, 255, 255⟩),
     ((33 : Nat), ⟨200, 200, 200⟩),
     ((66 : Nat), ⟨100, 100, 100⟩),
     ((100 : Nat), ⟨0, 0, 0⟩)]),
   ("紫色心情",
    [((0 : Nat), ⟨230, 230, 250⟩),
     ((33 : Nat), ⟨147, 112, 219⟩),
     ((66 : Nat), ⟨138, 43, 226⟩),
     ((100 : Nat), ⟨186, 85, 211⟩)]),
   ("红色风暴",
    [((0 : Nat), ⟨255, 0, 0⟩),
     ((33 : Nat), ⟨200, 0, 0⟩),
     ((66 : Nat), ⟨150, 0, 0⟩),
     ((100 : Nat), ⟨100, 0, 0⟩)]),
   ("海洋蓝",
    [((0 : Nat), ⟨0, 191, 255⟩),
     ((33 : Nat), ⟨30, 144, 255⟩),
     ((66 : Nat), ⟨70, 130, 180⟩),
     ((100 : Nat), ⟨25, 25, 112⟩)]),
   ("森林绿",
    [((0 : Nat), ⟨173, 255, 47⟩),
     ((33 : Nat), ⟨124, 252, 0⟩),
     ((66 : Nat), ⟨50, 205, 50⟩),
     ((100 : Nat), ⟨34, 139, 34⟩)]),
   ("极光",
    [((0 : Nat), ⟨0, 255, 127⟩),
     ((33 : Nat), ⟨0, 255, 255⟩),
     ((66 : Nat), ⟨0, 191, 255⟩),
     ((100 : Nat), ⟨138, 43, 226⟩)]),
   ("糖果",
    [((0 : Nat), ⟨255, 182, 193⟩),
     ((33 : Nat), ⟨255, 192, 203⟩),
     ((66 : Nat), ⟨255, 218, 185⟩),
     ((100 : Nat), ⟨255, 228, 225⟩)]),
   ("烈焰",
    [((0 : Nat), ⟨255, 99, 71⟩),
     ((33 : Nat), ⟨255, 69, 0⟩),
     ((66 : Nat), ⟨255, 140, 0⟩),
     ((100 : Nat), ⟨255, 215, 0⟩)])]

/-- ThemeManager.get_gradient_stops (lines 121-123): dictionary lookup with
the solid theme as fallback for unknown names. -/
def get_gradient_stops (theme_name : String) : List (GradPos × QColor) :=
  match THEMES.find? (fun t => t.1 = theme_name) with
  | some t => t.2
  | none => [((0 : Nat), ⟨255, 255, 255⟩)]

/-! ## Gradient construction (ClockWidget.paintEvent, lines 377-397) -/

/-- QGradient.setColorAt: stops are kept sorted by position; setting a color
at an existing position replaces that stop. -/
def setColorAt (stops : List (GradPos × QColor)) (p : GradPos) (c : QColor) : List (GradPos × QColor) :=
  match stops with
  | [] => [(p, c)]
  | (q, d) :: rest =>
    if p < q then (p, c) :: (q, d) :: rest
    else if p = q then (p, c) :: rest
    else (q, d) :: setColorAt rest p c

/-- The stop list of the QLinearGradient built in paintEvent (lines 382-387):
every catalog stop is installed with setColorAt, and if the theme has more
than one stop the color at position 1.0 is then forced to the first stop's
color. -/
def buildGradientStops (stops : List (GradPos × QColor)) : List (GradPos × QColor) :=
  let g := stops.foldl (fun acc pc => setColorAt acc pc.1 pc.2) []
  match stops with
  | [] => g
  | (_, c0) :: _ => if 1 < stops.length then setColorAt g 100 c0 else g

/-! ## Paint style selection with fault containment (paintEvent lines 377-397)

The whole pen-selection block sits in one try/except; any exception raised
by Qt while constructing or applying the gradient is modelled by an injected
fault value.  The except branch falls back to the flat custom color.  The
embedding is a total function: no error value escapes it. -/

inductive PaintFault where
  | raised
  deriving DecidableEq

inductive PaintStyle where
  | flat (c : QColor)
  | gradientPen (stops : List (GradPos × QColor)) (start finish : Int)
  deriving DecidableEq

def select_pen (theme_name : String) (custom_color : QColor) (width : Int)
    (gradient_offset : Int) (animActive : Bool) (fault : Option PaintFault) : PaintStyle :=
  match fault with
  | some _ => PaintStyle.flat custom_color
  | none =>
    if theme_name = "单色" then PaintStyle.flat custom_color
    else
      let stops := buildGradientStops (get_gradient_stops theme_name)
      if animActive then
        PaintStyle.gradientPen stops gradient_offset (gradient_offset + width)
      else
        PaintStyle.gradientPen stops 0 width

/-! ## Display-mode arbitration and timer text (lines 287-296, 362-368) -/

/-- ClockWidget._is_timer_active (lines 287-296). -/
def is_timer_active (st : TimerState) : Bool :=
  (st.countdown_running || decide (st.countdown_seconds ≠ DEFAULT_COUNTDOWN_MINUTES * 60)) ||
  (st.stopwatch_running || decide (0 < st.stopwatch_seconds))

inductive DisplayMode where
  | clock
  | timerExclusive
  deriving DecidableEq

/-- The display mode selected by update_geometry and paintEvent: both branch
on _is_timer_active (lines 304 and 401). -/
def display_mode (st : TimerState) : DisplayMode :=
  if is_timer_active st then DisplayMode.timerExclusive else DisplayMode.clock

/-- ClockWidget._get_timer_text (lines 362-368).  get_countdown_time_str can
repair the stored counter, so the successor state is returned as well. -/
def get_timer_text (st : TimerState) : String × TimerState :=
  if is_timer_active st then
    if decide (st.countdown_seconds ≠ DEFAULT_COUNTDOWN_MINUTES * 60) || st.countdown_running then
      let r := get_countdown_time_str st
      ("⏳ " ++ r.1, r.2)
    else
      ("⏱️ " ++ get_stopwatch_time_str st, st)
  else
    ("", st)

/-! ## Geometry (ClockWidget.update_geometry, lines 303-330)

Font measurement is external (QFontMetrics); it enters as a function from
point size and text to measured advance, plus a line height per point size.
For base sizes in the program's 20-250 range, Python int(size * 0.45),
int(size * 0.8) and int(size * 0.2) equal the exact rational floors
(size * 45) / 100, (size * 8) / 10 and (size * 2) / 10: 0.45, 0.8 and 0.2
round up as doubles, the product stays within one unit in the last place of
the exact value, and the exact value is never less than a tiny amount below
an integer, so float truncation matches the rational floor. -/

structure FontMetricsEnv where
  adv : Nat → String → Nat
  lineHeight : Nat → Nat

structure ClockConfig where
  base_font_size : Nat
  show_date : Bool
  show_week : Bool

def update_geometry (env : FontMetricsEnv) (cfg : ClockConfig)
    (timeText dateText weekText : String) (st : TimerState) : Nat × Nat :=
  if is_timer_active st then
    let timer_text := (get_timer_text st).1
    (env.adv cfg.base_font_size timer_text + 20,
     env.lineHeight cfg.base_font_size + 8)
  else
    let smallSize := cfg.base_font_size * 45 / 100
    let time_margin := max (cfg.base_font_size * 8 / 10) 40
    let w_time := env.adv cfg.base_font_size timeText + time_margin
    let w_date := if cfg.show_date then env.adv smallSize dateText else 0
    let w_week := if cfg.show_week then env.adv smallSize weekText else 0
    let width := max (max w_time w_date) w_week + 20
    let h_time := env.lineHeight cfg.base_font_size
    let h_small := env.lineHeight smallSize
    let height := h_time + (if cfg.show_date then 2 + h_small else 0) +
      (if cfg.show_week then 2 + h_small else 0) + 6
    (width, height)

/-- Modelled from the spec wording of claim C3: width = measured width +
max(baseFontSize*0.8, 40) margin + 20px pad in TimerExclusive mode.  Used
only to compare the spec's formula with the source's update_geometry. -/
def spec_timer_exclusive_size (env : FontMetricsEnv) (cfg : ClockConfig)
    (st : TimerState) : Nat × Nat :=
  let timer_text := (get_timer_text st).1
  (env.adv cfg.base_font_size timer_text + max (cfg.base_font_size * 8 / 10) 40 + 20,
   env.lineHeight cfg.base_font_size + 8)

/-- Modelled from the spec wording of claim C4: clock-mode width = max over
rendered lines of (measured width + that line's margin) + 20, with the
secondary margin floor(baseFontSize*0.2).  Used only to compare the spec's
formula with the source's update_geometry. -/
def spec_clock_width (env : FontMetricsEnv) (cfg : ClockConfig)
    (timeText dateText weekText : String) : Nat :=
  let smallSize := cfg.base_font_size * 45 / 100
  let secondary_margin := cfg.base_font_size * 2 / 10
  let w_time := env.adv cfg.base_font_size timeText + max (cfg.base_font_size * 8 / 10) 40
  let w_date := if cfg.show_date then env.adv smallSize dateText + secondary_margin else 0
  let w_week := if cfg.show_week then env.adv smallSize weekText + secondary_margin else 0
  max (max w_time w_date) w_week + 20

/-! ## SettingsManager (desktop_clock.py lines 862-899)

The QSettings backing store is a key-to-value map; the values the
application reads and writes are booleans, ints, strings and QColor (the
schema of spec section 6), plus Python None for absent data.  Python's
str() of a QColor and QColor-from-string construction are external
(implementation-dependent), so they enter as parameters. -/

inductive RawVal where
  | vnone
  | vbool (b : Bool)
  | vint (i : Int)
  | vstr (s : String)
  | vcolor (c : QColor)
  deriving DecidableEq

inductive ValTy where
  | tnone
  | tbool
  | tint
  | tstr
  | tcolor
  deriving DecidableEq

def typeOf : RawVal → ValTy
  | RawVal.vnone => ValTy.tnone
  | RawVal.vbool _ => ValTy.tbool
  | RawVal.vint _ => ValTy.tint
  | RawVal.vstr _ => ValTy.tstr
  | RawVal.vcolor _ => ValTy.tcolor

/-- Python truthiness (bool(value)) on the modelled value shapes; a QColor
object is always truthy. -/
def pyTruthy : RawVal → Bool
  | RawVal.vnone => false
  | RawVal.vbool b => b
  | RawVal.vint i => i != 0
  | RawVal.vstr s => s != ""
  | RawVal.vcolor _ => true

/-- Python int(str): surrounding whitespace stripped, optional sign, then a
non-empty run of decimal digits; anything else raises ValueError (modelled
as failure). -/
def digitsToNat : List Char → Option Nat
  | [] => none
  | cs =>
    cs.foldl
      (fun acc c =>
        match acc with
        | none => none
        | some n => if c.isDigit then some (n * 10 + (c.toNat - 48)) else none)
      (some 0)

def pyIntOfStr (s : String) : Option Int :=
  let cs := ((s.data.dropWhile Char.isWhitespace).reverse.dropWhile Char.isWhitespace).reverse
  match cs with
  | '+' :: rest => (digitsToNat rest).map Int.ofNat
  | '-' :: rest => (digitsToNat rest).map (fun n => -(Int.ofNat n : Int))
  | l => (digitsToNat l).map Int.ofNat

/-- Python int(value): bools and ints convert, strings parse or raise,
a QColor raises TypeError. -/
def pyIntCoerce : RawVal → Option Int
  | RawVal.vbool b => some (if b then 1 else 0)
  | RawVal.vint i => some i
  | RawVal.vstr s => pyIntOfStr s
  | _ => none

def intDec (i : Int) : String :=
  if i < 0 then "-" ++ natDec (-i).toNat else natDec i.toNat

structure PyEnv where
  showColor : QColor → String
  colorOfStr : String → QColor

/-- Python str(value) on the modelled value shapes. -/
def pyStr (env : PyEnv) : RawVal → String
  | RawVal.vnone => "None"
  | RawVal.vbool b => if b then "True" else "False"
  | RawVal.vint i => intDec i
  | RawVal.vstr s => s
  | RawVal.vcolor c => env.showColor c

namespace SettingsManager

/-- SettingsManager.get (lines 868-893).  QSettings.value(key, default)
returns the stored value or the default when the key is absent; the typed
branches then coerce per the default's type, substituting the default when
coercion fails. -/
def get (env : PyEnv) (store : String → Option RawVal) (key : String)
    (default : RawVal) : RawVal :=
  let value := (store key).getD default
  match default with
  | RawVal.vnone => value
  | RawVal.vbool _ =>
    match value with
    | RawVal.vstr s => RawVal.vbool (s.toLower == "true")
    | RawVal.vnone => default
    | v => RawVal.vbool (pyTruthy v)
  | RawVal.vint _ =>
    match value with
    | RawVal.vnone => default
    | v =>
      match pyIntCoerce v with
      | some i => RawVal.vint i
      | none => default
  | RawVal.vstr _ =>
    match value with
    | RawVal.vnone => default
    | v => RawVal.vstr (pyStr env v)
  | RawVal.vcolor _ =>
    match value with
    | RawVal.vstr s => RawVal.vcolor (env.colorOfStr s)
    | RawVal.vcolor c => RawVal.vcolor c
    | _ => default

/-- SettingsManager.set (lines 895-896): stores the value under the key. -/
def set (store : String → Option RawVal) (key : String) (v : RawVal) :
    String → Option RawVal :=
  fun k => if k = key then some v else store k

end SettingsManager

/-! ## Helper lemmas on decimal rendering -/

theorem natDecCore_length (fuel n : Nat) (h : n < fuel) :
    (n < 10 → (natDecCore fuel n).length = 1) ∧
    (10 ≤ n → n ≤ 99 → (natDecCore fuel n).length = 2) ∧
    1 ≤ (natDecCore fuel n).length ∧
    (100 ≤ n → 3 ≤ (natDecCore fuel n).length) := by
  induction fuel generalizing n with
  | zero => omega
  | succ fuel ih =>
    by_cases h10 : n < 10
    · have e : natDecCore (fuel + 1) n = [Char.ofNat (48 + n)] := by
        simp [natDecCore, h10]
      rw [e]
      refine ⟨fun _ => rfl, fun h1 _ => by omega, by simp, fun h1 => by omega⟩
    · have hdiv : n / 10 < n := Nat.div_lt_self (by omega) (by omega)
      have hlt : n / 10 < fuel := by omega
      have e : natDecCore (fuel + 1) n =
          natDecCore fuel (n / 10) ++ [Char.ofNat (48 + n % 10)] := by
        simp [natDecCore, h10]
      obtain ⟨ih1, ih2, ih3, ih4⟩ := ih (n / 10) hlt
      rw [e, List.length_append]
      refine ⟨fun hc => by omega, fun ha hb => ?_, by simp, fun ha => ?_⟩
      · have : (natDecCore fuel (n / 10)).length = 1 := ih1 (by omega)
        simp [this]
      · by_cases hb : n / 10 ≤ 99
        · have : (natDecCore fuel (n / 10)).length = 2 := ih2 (by omega) hb
          simp [this]
        · have : 3 ≤ (natDecCore fuel (n / 10)).length := ih4 (by omega)
          simp
          omega

theorem fmt02_length_facts (k : Nat) :
    2 ≤ (fmt02 k).length ∧ ((fmt02 k).length = 2 ↔ k ≤ 99) := by
  obtain ⟨h1, h2, h3, h4⟩ := natDecCore_length (k + 1) k (by omega)
  unfold fmt02 natDec
  by_cases hk : k < 10
  · rw [if_pos hk]
    have : ("0" ++ String.mk (natDecCore (k + 1) k)).length =
        1 + (natDecCore (k + 1) k).length := by
      simp [String.length, String.append]
      omega
    rw [this, h1 hk]
    omega
  · rw [if_neg hk]
    have hm : (String.mk (natDecCore (k + 1) k)).length = (natDecCore (k + 1) k).length := rfl
    rw [hm]
    by_cases hk99 : k ≤ 99
    · have := h2 (by omega) hk99
      omega
    · have := h4 (by omega)
      omega

/-! ## Claim theorems: timer state machine -/

/-- C1: On a countdown tick, a positive remaining count is decremented by
exactly 1 with a remaining-seconds-changed event; if the decrement reaches
exactly 0 a finished event is emitted exactly once and the countdown
auto-pauses (running becomes false); if remaining was already 0 the
countdown auto-pauses with no decrement and no finished event.  Starting at
5 seconds and ticking 5 times emits remaining 4,3,2,1,0 with finished once
at the 0 transition, ending not running. -/
theorem countdown_tick_spec (st : TimerState) :
    (1 < st.countdown_seconds →
      on_countdown_tick st =
        ({ st with countdown_seconds := st.countdown_seconds - 1 },
         [TimerEvent.countdownUpdated (st.countdown_seconds - 1)])) ∧
    (st.countdown_seconds = 1 →
      on_countdown_tick st =
        ({ st with countdown_seconds := 0, countdown_running := false },
         [TimerEvent.countdownUpdated 0, TimerEvent.countdownFinished,
          TimerEvent.countdownStateChanged false])) ∧
    (st.countdown_seconds = 0 →
      on_countdown_tick st =
        ({ st with countdown_running := false },
         [TimerEvent.countdownStateChanged false])) ∧
    ((on_countdown_tick st).2.count TimerEvent.countdownFinished =
      if st.countdown_seconds = 1 then 1 else 0) ∧
    runCountdownTicks 5 ⟨5, true, 0, false⟩ =
      (⟨0, false, 0, false⟩,
       [TimerEvent.countdownUpdated 4, TimerEvent.countdownUpdated 3,
        TimerEvent.countdownUpdated 2, TimerEvent.countdownUpdated 1,
        TimerEvent.countdownUpdated 0, TimerEvent.countdownFinished,
        TimerEvent.countdownStateChanged false]) := by
  obtain ⟨cd, cr, sw, sr⟩ := st
  refine ⟨fun h1 => ?_, fun h1 => ?_, fun h1 => ?_, ?_, by decide⟩
  · replace h1 : (1 : Int) < cd := h1
    have hpos : (0 : Int) < cd := by omega
    have hne : ¬((cd - 1 : Int) = 0) := by omega
    simp [on_countdown_tick, hpos, hne]
  · replace h1 : cd = (1 : Int) := h1
    subst h1
    simp [on_countdown_tick, pause_countdown]
  · replace h1 : cd = (0 : Int) := h1
    subst h1
    simp [on_countdown_tick, pause_countdown]
  · by_cases h1 : cd = (1 : Int)
    · subst h1
      simp [on_countdown_tick, pause_countdown, List.count_cons]
    · by_cases h0 : (0 : Int) < cd
      · have hne : ¬((cd - 1 : Int) = 0) := by omega
        simp [on_countdown_tick, h0, hne, h1, List.count_cons]
      · simp [on_countdown_tick, pause_countdown, h0, h1, List.count_cons]

/-- Witness for countdown_tick_spec at concrete states 2, 1 and 0 seconds. -/
theorem countdown_tick_spec_witness :
    on_countdown_tick ⟨2, true, 0, false⟩ =
      (⟨1, true, 0, false⟩, [TimerEvent.countdownUpdated 1]) ∧
    on_countdown_tick ⟨1, true, 0, false⟩ =
      (⟨0, false, 0, false⟩,
       [TimerEvent.countdownUpdated 0, TimerEvent.countdownFinished,
        TimerEvent.countdownStateChanged false]) ∧
    on_countdown_tick ⟨0, true, 0, false⟩ =
      (⟨0, false, 0, false⟩, [TimerEvent.countdownStateChanged false]) :=
  ⟨(countdown_tick_spec ⟨2, true, 0, false⟩).1 (by decide),
   (countdown_tick_spec ⟨1, true, 0, false⟩).2.1 (by decide),
   (countdown_tick_spec ⟨0, true, 0, false⟩).2.2.1 (by decide)⟩

/-- The remaining seconds produced by start_countdown: the optional minutes
argument overwrites it, otherwise it is unchanged. -/
def countdown_effective (m : Option Int) (st : TimerState) : Int :=
  match m with
  | some minutes => minutes * 60
  | none => st.countdown_seconds

/-- C7: startCountdown sets remaining seconds to minutes*60 when minutes is
given; when already running it makes no start transition and emits nothing;
when not running with remaining 0 (and no minutes) it is a no-op; otherwise
it transitions to running and emits running-state-changed(true). -/
theorem start_countdown_spec (st : TimerState) (m : Option Int) :
    ((start_countdown m st).1.countdown_seconds = countdown_effective m st) ∧
    (st.countdown_running = true →
      (start_countdown m st).1 =
        { st with countdown_seconds := countdown_effective m st } ∧
      (start_countdown m st).2 = []) ∧
    (st.countdown_running = false → st.countdown_seconds = 0 → m = none →
      start_countdown m st = (st, [])) ∧
    (st.countdown_running = false → 0 < countdown_effective m st →
      start_countdown m st =
        ({ st with countdown_seconds := countdown_effective m st,
                   countdown_running := true },
         [TimerEvent.countdownStateChanged true])) := by
  obtain ⟨cd, cr, sw, sr⟩ := st
  refine ⟨?_, fun hr => ?_, fun hr h0 hn => ?_, fun hr hpos => ?_⟩
  · cases m <;> simp only [start_countdown, countdown_effective] <;>
      split_ifs <;> rfl
  · subst hr
    cases m <;> simp [start_countdown, countdown_effective]
  · subst hn
    subst hr
    replace h0 : cd = (0 : Int) := h0
    subst h0
    simp [start_countdown, countdown_effective]
  · subst hr
    cases m with
    | none =>
      replace hpos : (0 : Int) < cd := hpos
      simp [start_countdown, hpos]
      rfl
    | some minutes =>
      replace hpos : (0 : Int) < minutes * 60 := hpos
      simp [start_countdown, hpos]
      rfl

/-- Witness for start_countdown_spec: starting an exhausted countdown with
an explicit 5 minutes succeeds; starting it bare is a no-op. -/
theorem start_countdown_spec_witness :
    start_countdown (some 5) ⟨0, false, 0, false⟩ =
      (⟨300, true, 0, false⟩, [TimerEvent.countdownStateChanged true]) ∧
    start_countdown none ⟨0, false, 0, false⟩ = (⟨0, false, 0, false⟩, []) :=
  ⟨(start_countdown_spec ⟨0, false, 0, false⟩ (some 5)).2.2.2 rfl (by decide),
   (start_countdown_spec ⟨0, false, 0, false⟩ none).2.2.1 rfl rfl rfl⟩

/-! ## Claim theorems: display arbitration and formatting -/

/-- C2: The display is timer-exclusive exactly when the countdown is active
(running, or remaining differs from the 25-minute default) or the stopwatch
is active (running, or elapsed positive); whenever the countdown is active
(in particular when both are active) the countdown text is displayed.  The
freshly initialised state shows the clock, and merely setting a non-default
countdown minutes value while paused switches to timer-exclusive display. -/
theorem display_arbitration (st : TimerState) :
    (display_mode st = DisplayMode.timerExclusive ↔
      ((st.countdown_running = true ∨
        st.countdown_seconds ≠ DEFAULT_COUNTDOWN_MINUTES * 60) ∨
       (st.stopwatch_running = true ∨ 0 < st.stopwatch_seconds))) ∧
    ((st.countdown_running = true ∨
      st.countdown_seconds ≠ DEFAULT_COUNTDOWN_MINUTES * 60) →
      (get_timer_text st).1 = "⏳ " ++ (get_countdown_time_str st).1) ∧
    display_mode timerInit = DisplayMode.clock ∧
    (∀ minutes : Int, minutes ≠ 25 →
      display_mode (set_countdown_minutes minutes timerInit).1 =
        DisplayMode.timerExclusive) := by
  obtain ⟨cd, cr, sw, sr⟩ := st
  refine ⟨?_, fun hc => ?_, by decide, fun minutes hm => ?_⟩
  · have hb : ∀ b : Bool,
        (if b then DisplayMode.timerExclusive else DisplayMode.clock) =
          DisplayMode.timerExclusive ↔ b = true := by
      intro b
      cases b <;> simp
    rw [display_mode, hb]
    simp [is_timer_active]
  · replace hc : cr = true ∨ cd ≠ DEFAULT_COUNTDOWN_MINUTES * 60 := hc
    have hact : is_timer_active ⟨cd, cr, sw, sr⟩ = true := by
      simp [is_timer_active]
      tauto
    have hprop : ¬cd = DEFAULT_COUNTDOWN_MINUTES * 60 ∨ cr = true := by tauto
    simp [get_timer_text, hact, hprop]
  · have h60 : minutes * 60 ≠ DEFAULT_COUNTDOWN_MINUTES * 60 := by
      simp only [DEFAULT_COUNTDOWN_MINUTES]
      omega
    simp [set_countdown_minutes, timerInit, display_mode, is_timer_active, h60]

/-- Witness for display_arbitration: with both timers simultaneously active
the countdown text wins, and setting 10 minutes while idle switches the
display to timer-exclusive. -/
theorem display_arbitration_witness :
    (get_timer_text ⟨600, true, 3, true⟩).1 =
      "⏳ " ++ (get_countdown_time_str ⟨600, true, 3, true⟩).1 ∧
    display_mode (set_countdown_minutes 10 timerInit).1 =
      DisplayMode.timerExclusive :=
  ⟨(display_arbitration ⟨600, true, 3, true⟩).2.1 (Or.inl rfl),
   (display_arbitration ⟨600, true, 3, true⟩).2.2.2 10 (by decide)⟩

/-- C10: get_countdown_time_str repairs the stored counter in place: the
returned state clamps a negative remaining count to 0 (leaving everything
else unchanged), so the stored value is afterwards non-negative and the
returned string renders that non-negative value. -/
theorem countdown_str_repairs (st : TimerState) :
    (get_countdown_time_str st).2 =
      { st with countdown_seconds := max st.countdown_seconds 0 } ∧
    0 ≤ (get_countdown_time_str st).2.countdown_seconds ∧
    (get_countdown_time_str st).1 =
      fmt02 ((get_countdown_time_str st).2.countdown_seconds.toNat / 60) ++ ":" ++
        fmt02 ((get_countdown_time_str st).2.countdown_seconds.toNat % 60) := by
  obtain ⟨cd, cr, sw, sr⟩ := st
  by_cases h : cd < 0
  · have hmax : max cd 0 = 0 := by omega
    refine ⟨?_, ?_, ?_⟩ <;> simp [get_countdown_time_str, h, hmax]
  · have hmax : max cd 0 = cd := by omega
    refine ⟨?_, ?_, ?_⟩ <;> simp [get_countdown_time_str, h, hmax]
    omega

/-- C8: The countdown string is the 02d-padded minutes and seconds fields
separated by a colon; a field is exactly 2 characters when its value is at
most 99 (zero-padded) and longer only above 99; the stopwatch string is
three 02d-padded fields hours:minutes:seconds with hours not reduced; 3661
elapsed seconds formats as 01:01:01. -/
theorem timer_format_spec :
    (∀ st : TimerState, 0 ≤ st.countdown_seconds →
      (get_countdown_time_str st).1 =
        fmt02 (st.countdown_seconds.toNat / 60) ++ ":" ++
          fmt02 (st.countdown_seconds.toNat % 60)) ∧
    (∀ k : Nat, 2 ≤ (fmt02 k).length) ∧
    (∀ k : Nat, (fmt02 k).length = 2 ↔ k ≤ 99) ∧
    (∀ st : TimerState,
      get_stopwatch_time_str st =
        fmt02 (st.stopwatch_seconds / 3600) ++ ":" ++
          fmt02 (st.stopwatch_seconds % 3600 / 60) ++ ":" ++
          fmt02 (st.stopwatch_seconds % 60)) ∧
    get_stopwatch_time_str ⟨1500, false, 3661, false⟩ = "01:01:01" := by
  refine ⟨fun st h => ?_, fun k => (fmt02_length_facts k).1,
    fun k => (fmt02_length_facts k).2, fun st => rfl, by decide⟩
  obtain ⟨cd, cr, sw, sr⟩ := st
  replace h : (0 : Int) ≤ cd := h
  simp [get_countdown_time_str, not_lt.mpr h]

/-- Witness for timer_format_spec: the countdown-format clause applied at a
concrete non-negative state. -/
theorem timer_format_spec_witness :
    (get_countdown_time_str ⟨300, true, 0, false⟩).1 =
      fmt02 ((300 : Int).toNat / 60) ++ ":" ++ fmt02 ((300 : Int).toNat % 60) :=
  timer_format_spec.1 ⟨300, true, 0, false⟩ (by decide)

/-! ## Claim theorems: geometry -/

/-- Counterexample to C3: with constant measured width 100 and line height
50 at base size 80, update_geometry returns width 100 + 20 = 120 in
timer-exclusive mode, not the spec's 100 + max(64, 40) + 20 = 184: the
margin term is absent from the widget-size computation (it appears only in
the paint rectangle). -/
theorem timer_size_counterexample :
    update_geometry ⟨fun _ _ => 100, fun _ => 50⟩ ⟨80, true, true⟩
        "12:34" "2026-10-12" "Sunday" ⟨600, true, 0, false⟩ ≠
      spec_timer_exclusive_size ⟨fun _ _ => 100, fun _ => 50⟩ ⟨80, true, true⟩
        ⟨600, true, 0, false⟩ := by decide

/-- C3 (amended): in timer-exclusive mode the computed widget size is
width = measured width of the timer text + 20px pad (with no extra margin
term) and height = line height + 8px pad. -/
theorem timer_size_amended (env : FontMetricsEnv) (cfg : ClockConfig)
    (timeText dateText weekText : String) (st : TimerState)
    (h : is_timer_active st = true) :
    update_geometry env cfg timeText dateText weekText st =
      (env.adv cfg.base_font_size (get_timer_text st).1 + 20,
       env.lineHeight cfg.base_font_size + 8) := by
  simp [update_geometry, h]

/-- Witness for timer_size_amended at the counterexample metrics. -/
theorem timer_size_amended_witness :
    update_geometry ⟨fun _ _ => 100, fun _ => 50⟩ ⟨80, true, true⟩
        "12:34" "2026-10-12" "Sunday" ⟨600, true, 0, false⟩ = (120, 58) := by
  rw [timer_size_amended ⟨fun _ _ => 100, fun _ => 50⟩ ⟨80, true, true⟩
    "12:34" "2026-10-12" "Sunday" ⟨600, true, 0, false⟩ (by decide)]

/-- Counterexample to C4: at base size 80, time width 10 and secondary
width 100, update_geometry returns max(10 + 64, 100, 0) + 20 = 120, not the
spec's max(10 + 64, 100 + 16, 0) + 20 = 136: secondary lines contribute no
margin to the width computation (the 0.2 margin appears only in the paint
rectangle). -/
theorem clock_width_counterexample :
    (update_geometry ⟨fun size _ => if size = 80 then 10 else 100, fun _ => 50⟩
        ⟨80, true, false⟩ "t" "d" "w" timerInit).1 ≠
      spec_clock_width ⟨fun size _ => if size = 80 then 10 else 100, fun _ => 50⟩
        ⟨80, true, false⟩ "t" "d" "w" := by decide

/-- C4 (amended): in clock mode the width is the maximum over rendered
lines of the measured width plus that line's margin, where the primary
margin is max(floor(0.8*base), 40) and the secondary margin is 0 (hidden
lines contribute 0), plus the fixed 20px pad; secondary text is measured at
floor(0.45*base). -/
theorem clock_width_amended (env : FontMetricsEnv) (cfg : ClockConfig)
    (timeText dateText weekText : String) (st : TimerState)
    (h : is_timer_active st = false) :
    (update_geometry env cfg timeText dateText weekText st).1 =
      max (max (env.adv cfg.base_font_size timeText +
                 max (cfg.base_font_size * 8 / 10) 40)
            (if cfg.show_date then
              env.adv (cfg.base_font_size * 45 / 100) dateText else 0))
          (if cfg.show_week then
            env.adv (cfg.base_font_size * 45 / 100) weekText else 0) + 20 := by
  simp [update_geometry, h]

/-- Witness for clock_width_amended at the counterexample metrics. -/
theorem clock_width_amended_witness :
    (update_geometry ⟨fun size _ => if size = 80 then 10 else 100, fun _ => 50⟩
        ⟨80, true, false⟩ "t" "d" "w" timerInit).1 = 120 := by
  rw [clock_width_amended ⟨fun size _ => if size = 80 then 10 else 100, fun _ => 50⟩
    ⟨80, true, false⟩ "t" "d" "w" timerInit (by decide)]
  decide

/-! ## Claim theorems: gradient rendering -/

/-- C5: an exception injected anywhere in the gradient construction or
application path makes the frame fall back to the flat custom-color pen;
select_pen is a total function, so no error value escapes the paint
operation. -/
theorem paint_fault_fallback (theme_name : String) (custom_color : QColor)
    (width gradient_offset : Int) (animActive : Bool)
    (fault : Option PaintFault) (h : fault.isSome = true) :
    select_pen theme_name custom_color width gradient_offset animActive fault =
      PaintStyle.flat custom_color := by
  cases fault with
  | none => simp at h
  | some f => rfl

/-- Witness for paint_fault_fallback: a fault during the rainbow-theme
gradient frame yields the flat white pen. -/
theorem paint_fault_fallback_witness :
    select_pen "彩虹" ⟨255, 255, 255⟩ 200 0 true (some PaintFault.raised) =
      PaintStyle.flat ⟨255, 255, 255⟩ :=
  paint_fault_fallback "彩虹" ⟨255, 255, 255⟩ 200 0 true
    (some PaintFault.raised) rfl

/-- Counterexample to C6: the catalog data itself violates the seam
invariant — the rainbow theme has at least 2 stops and its terminal stop
color (128,0,128) differs from its first stop color (255,0,0). -/
theorem gradient_seam_counterexample :
    2 ≤ (get_gradient_stops "彩虹").length ∧
    (get_gradient_stops "彩虹").getLast?.map Prod.snd ≠
      (get_gradient_stops "彩虹").head?.map Prod.snd := by decide

/-- C6 (amended): for every theme whose stop list has at least 2 stops, the
gradient the renderer constructs has its terminal stop color forced equal
to the first stop's color (and its first stop keeps that color), so the
realized gradient tiles seamlessly; the catalog data itself does not
satisfy the invariant. -/
theorem gradient_seam_realized (theme_name : String)
    (h : 2 ≤ (get_gradient_stops theme_name).length) :
    (buildGradientStops (get_gradient_stops theme_name)).getLast?.map Prod.snd =
      (get_gradient_stops theme_name).head?.map Prod.snd ∧
    (buildGradientStops (get_gradient_stops theme_name)).head?.map Prod.snd =
      (get_gradient_stops theme_name).head?.map Prod.snd := by
  have hmem : get_gradient_stops theme_name ∈ THEMES.map Prod.snd ∨
      get_gradient_stops theme_name = [((0 : Nat), ⟨255, 255, 255⟩)] := by
    unfold get_gradient_stops
    cases hf : THEMES.find? (fun t => t.1 = theme_name) with
    | none => exact Or.inr rfl
    | some t => exact Or.inl (List.mem_map_of_mem _ (List.mem_of_find?_eq_some hf))
  have hall : ∀ s ∈ THEMES.map Prod.snd, 2 ≤ s.length →
      (buildGradientStops s).getLast?.map Prod.snd = s.head?.map Prod.snd ∧
      (buildGradientStops s).head?.map Prod.snd = s.head?.map Prod.snd := by decide
  rcases hmem with hm | he
  · exact hall _ hm h
  · rw [he] at h
    simp at h

/-- Witness for gradient_seam_realized at the rainbow theme. -/
theorem gradient_seam_realized_witness :
    (buildGradientStops (get_gradient_stops "彩虹")).getLast?.map Prod.snd =
      (get_gradient_stops "彩虹").head?.map Prod.snd :=
  (gradient_seam_realized "彩虹" (by decide)).1

/-! ## Claim theorems: settings access -/

/-- C9: for every key and every non-None default, get returns a value of
the same semantic type as the default, substituting the default (rather
than raising) when the stored raw value cannot be coerced; after
set("base_size", 120), get("base_size", 80) returns 120, and the same get
on a stored non-numeric string returns 80. -/
theorem settings_get_type_safe (env : PyEnv) (store : String → Option RawVal)
    (key : String) (default : RawVal) (h : default ≠ RawVal.vnone) :
    typeOf (SettingsManager.get env store key default) = typeOf default ∧
    SettingsManager.get env
        (SettingsManager.set store "base_size" (RawVal.vint 120))
        "base_size" (RawVal.vint 80) = RawVal.vint 120 ∧
    SettingsManager.get env
        (SettingsManager.set store "base_size" (RawVal.vstr "not a number"))
        "base_size" (RawVal.vint 80) = RawVal.vint 80 := by
  refine ⟨?_, ?_, ?_⟩
  · cases default with
    | vnone => exact absurd rfl h
    | vbool b =>
      cases hv : (store key).getD (RawVal.vbool b) <;>
        simp [SettingsManager.get, hv, typeOf]
    | vint i =>
      cases hv : (store key).getD (RawVal.vint i) with
      | vstr s =>
        cases hc : pyIntOfStr s <;>
          simp [SettingsManager.get, hv, hc, pyIntCoerce, typeOf]
      | _ => simp [SettingsManager.get, hv, pyIntCoerce, typeOf]
    | vstr s =>
      cases hv : (store key).getD (RawVal.vstr s) <;>
        simp [SettingsManager.get, hv, typeOf]
    | vcolor c =>
      cases hv : (store key).getD (RawVal.vcolor c) <;>
        simp [SettingsManager.get, hv, typeOf]
  · simp [SettingsManager.get, SettingsManager.set, pyIntCoerce]
  · have hp : pyIntOfStr "not a number" = none := by decide
    simp [SettingsManager.get, SettingsManager.set, pyIntCoerce, hp]

/-- Witness for settings_get_type_safe at a concrete environment, the empty
store and an int default. -/
theorem settings_get_type_safe_witness :
    typeOf (SettingsManager.get ⟨fun _ => "", fun _ => ⟨0, 0, 0⟩⟩
        (fun _ => none) "base_size" (RawVal.vint 80)) =
      typeOf (RawVal.vint 80) :=
  (settings_get_type_safe ⟨fun _ => "", fun _ => ⟨0, 0, 0⟩⟩
    (fun _ => none) "base_size" (RawVal.vint 80) (by simp)).1
